import Mathlib

/-!
Verification of the DietCode CI-repair agent (`src/agent/analyzer.py`,
`src/agent/fix_genertor.py`, `src/agent/orchestrator.py`).

The Python code is shallowly embedded: strings are Lean `String`s processed as
`List Char`, Python dicts holding extracted parameters are association lists,
Python floats (only the exact decimal constants 0.0, 0.3, 0.7, 0.85, 0.9 occur,
whose comparisons agree with rational arithmetic) are `Rat`, and the regular
expressions of the analyzer (each a sequence of literals and greedy
one-or-more character classes, with at most one capturing group and no
anchors, so the `re.MULTILINE` flag is irrelevant) are interpreted by a
backtracking matcher with Python's leftmost-then-greedy strategy.
Rational constants are built with the `Rat` constructor so that all
definitions reduce in the kernel.
-/

set_option maxRecDepth 100000

namespace DietCode

/-! ### Basic character/list primitives mirroring the Python string operations -/

/-- Python `str.split("\n")`: split into lines at every newline, keeping empty
pieces (`"".split("\n") == [""]`). -/
def splitLines : List Char → List (List Char)
  | [] => [[]]
  | c :: rest =>
    let r := splitLines rest
    if c == '\n' then [] :: r else (c :: r.headI) :: r.tail

/-- Does the second list start with the first one? -/
def startsWithL : List Char → List Char → Bool
  | [], _ => true
  | _ :: _, [] => false
  | p :: ps, c :: cs => p == c && startsWithL ps cs

/-- Python `needle in haystack` substring containment. -/
def containsSub (needle : List Char) : List Char → Bool
  | [] => needle.isEmpty
  | c :: cs => startsWithL needle (c :: cs) || containsSub needle cs

/-- Python `str.lower()` of one character, as a character sequence. The
mapping is exact on every character whose Unicode lowercase involves an
ASCII character: `A`-`Z` lower to `a`-`z`, U+212A (Kelvin sign) lowers to
`k`, and U+0130 (capital dotted I) lowers to the two characters `i` U+0307 —
these are the only code points with such lowercases (U+212A is the sole
non-ASCII code point whose lowercase is pure ASCII, and U+0130 the sole one
with a multi-character `str.lower` image). Every other character is kept
as-is, which is sound for deciding containment of the analyzer's ASCII
keywords: its Python lowercase is a single character that is ASCII exactly
when the original is, so the ASCII runs of the lowered line are unchanged. -/
def lowerChars (c : Char) : List Char :=
  if 'A' ≤ c && c ≤ 'Z' then [Char.ofNat (c.toNat + 32)]
  else if c == '\u212A' then ['k']
  else if c == '\u0130' then ['i', '\u0307']
  else [c]

/-- Python `"\n".join`. -/
def joinLines : List (List Char) → List Char
  | [] => []
  | [l] => l
  | l :: rest => l ++ '\n' :: joinLines rest

/-! ### Exact rational values of the Python float constants -/

/-- The float literal `0.3`. -/
def q03 : Rat := ⟨3, 10, by norm_num, by norm_num⟩

/-- The float literal `0.7` (default `PATCH_CONFIDENCE_THRESHOLD`). -/
def q07 : Rat := ⟨7, 10, by norm_num, by norm_num⟩

/-- The float literal `0.85`. -/
def q085 : Rat := ⟨17, 20, by norm_num, by norm_num⟩

/-- The float literal `0.9`. -/
def q09 : Rat := ⟨9, 10, by norm_num, by norm_num⟩

theorem q03_eq : q03 = 0.3 := by
  rw [q03, Rat.mk'_eq_divInt, Rat.divInt_eq_div]; norm_num

theorem q07_eq : q07 = 0.7 := by
  rw [q07, Rat.mk'_eq_divInt, Rat.divInt_eq_div]; norm_num

theorem q085_eq : q085 = 0.85 := by
  rw [q085, Rat.mk'_eq_divInt, Rat.divInt_eq_div]; norm_num

theorem q09_eq : q09 = 0.9 := by
  rw [q09, Rat.mk'_eq_divInt, Rat.divInt_eq_div]; norm_num

/-! ### A small regex interpreter

Every pattern in the analyzer and the orchestrator has the shape
`literal (class+ literal)*` with at most one capturing group spanning a
contiguous sub-sequence, where every character class is one of `[^x]`, `[^\s]`
or `.`. `reSearch` realizes `re.search`: leftmost starting position first,
and at a given position greedy `+` with backtracking, exactly Python's
strategy for these constructs. -/

/-- The character classes occurring in the program's regexes: `[^c]`,
`[^\s]` (Unicode whitespace, as in Python patterns over `str`) and `.`
(anything but a newline). -/
inductive CharCond where
  | notChar (c : Char)
  | notSpace
  | notNewline
deriving DecidableEq, Repr

/-- Python's `\s` for `str` patterns (`Py_UNICODE_ISSPACE`): the characters
U+0009-U+000D, U+001C-U+001F, space, U+0085, U+00A0, U+1680,
U+2000-U+200A, U+2028, U+2029, U+202F, U+205F and U+3000. -/
def isPySpace (c : Char) : Bool :=
  ('\x09' ≤ c && c ≤ '\x0d') || ('\x1c' ≤ c && c ≤ '\x1f') || c == ' '
    || c == '\x85' || c == '\xa0' || c == '\u1680'
    || ('\u2000' ≤ c && c ≤ '\u200A') || c == '\u2028' || c == '\u2029'
    || c == '\u202F' || c == '\u205F' || c == '\u3000'

/-- One regex element: a literal string, or a greedy `+` over a class. -/
inductive RItem where
  | lit (s : List Char)
  | plus (cc : CharCond)
deriving DecidableEq, Repr

def condMatch : CharCond → Char → Bool
  | .notChar c, x => !(x == c)
  | .notSpace, x => !(isPySpace x)
  | .notNewline, x => !(x == '\n')

/-- Match a sequence of regex elements at the start of `s`, calling the
continuation `k` on the remaining suffix; `plus` is greedy with backtracking
(longest run first, down to one character). -/
def matchSeq {α : Type} : List RItem → List Char → (List Char → Option α) → Option α
  | [], s, k => k s
  | .lit l :: rest, s, k =>
    if startsWithL l s then matchSeq rest (s.drop l.length) k else none
  | .plus cc :: rest, s, k =>
    let n := (s.takeWhile (condMatch cc)).length
    (List.range n).findSome? fun j => matchSeq rest (s.drop (n - j)) k

/-- A whole pattern: elements before the capturing group, the optional
capturing group, and the elements after it. -/
structure RPattern where
  pre : List RItem
  grp : Option (List RItem)
  post : List RItem
deriving DecidableEq, Repr

/-- Match `p` at the start of `s`; returns the length of the whole match
(`group(0)`) and the capture (`group(1)`), if the pattern has a group. -/
def matchPat (p : RPattern) (s : List Char) : Option (Nat × Option (List Char)) :=
  match p.grp with
  | none => matchSeq p.pre s fun rem => some (s.length - rem.length, none)
  | some g =>
    matchSeq p.pre s fun s1 =>
      matchSeq g s1 fun s2 =>
        matchSeq p.post s2 fun rem =>
          some (s.length - rem.length, some (s1.take (s1.length - s2.length)))

/-- Python `re.search p s`: try every starting position from the left,
returning `group(0)` and `group(1)` of the leftmost match. -/
def reSearch (p : RPattern) (s : List Char) : Option (List Char × Option (List Char)) :=
  (List.range (s.length + 1)).findSome? fun i =>
    (matchPat p (s.drop i)).map fun r => ((s.drop i).take r.1, r.2)

/-! ### `src/agent/analyzer.py` -/

/-- `FailureType`: the closed enumeration of diagnosable CI failures. -/
inductive FailureType where
  | module_not_found
  | import_error
  | missing_dependency
  | broken_path
  | syntax_error
  | unknown
deriving DecidableEq, Repr

/-- `FailureType.value`, the string value of each enum member. -/
def FailureType.value : FailureType → String
  | .module_not_found => "module_not_found"
  | .import_error => "import_error"
  | .missing_dependency => "missing_dependency"
  | .broken_path => "broken_path"
  | .syntax_error => "syntax_error"
  | .unknown => "unknown"

/-- The analyzer's result dict (`failure_type`, `error_message`, `details`,
`confidence`, `log_snippet`); `details` is the category-specific string→string
dict as an association list. -/
structure Diagnosis where
  failure_type : FailureType
  error_message : String
  details : List (String × String)
  confidence : Rat
  log_snippet : String
deriving DecidableEq, Repr

/-- `r"ModuleNotFoundError: No module named '([^']+)'"` -/
def pat_mnf1 : RPattern :=
  ⟨[.lit "ModuleNotFoundError: No module named \x27".toList],
   some [.plus (.notChar '\x27')], [.lit "\x27".toList]⟩

/-- `r"ImportError: No module named ([^\s]+)"` -/
def pat_mnf2 : RPattern :=
  ⟨[.lit "ImportError: No module named ".toList], some [.plus .notSpace], []⟩

/-- `r"cannot import name '([^']+)'"` -/
def pat_mnf3 : RPattern :=
  ⟨[.lit "cannot import name \x27".toList], some [.plus (.notChar '\x27')], [.lit "\x27".toList]⟩

/-- `r"ImportError: (.+)"` -/
def pat_ie1 : RPattern :=
  ⟨[.lit "ImportError: ".toList], some [.plus .notNewline], []⟩

/-- `r"from ([^\s]+) import .+ failed"` -/
def pat_ie2 : RPattern :=
  ⟨[.lit "from ".toList], some [.plus .notSpace],
   [.lit " import ".toList, .plus .notNewline, .lit " failed".toList]⟩

/-- `r"error: externally-managed-environment"` (no capture group) -/
def pat_md1 : RPattern :=
  ⟨[.lit "error: externally-managed-environment".toList], none, []⟩

/-- `r"Could not find a version that satisfies the requirement ([^\s]+)"` -/
def pat_md2 : RPattern :=
  ⟨[.lit "Could not find a version that satisfies the requirement ".toList],
   some [.plus .notSpace], []⟩

/-- `r"No matching distribution found for ([^\s]+)"` -/
def pat_md3 : RPattern :=
  ⟨[.lit "No matching distribution found for ".toList], some [.plus .notSpace], []⟩

/-- `r"FileNotFoundError: \[Errno 2\] No such file or directory: '([^']+)'"` -/
def pat_bp1 : RPattern :=
  ⟨[.lit "FileNotFoundError: [Errno 2] No such file or directory: \x27".toList],
   some [.plus (.notChar '\x27')], [.lit "\x27".toList]⟩

/-- `r"IOError: \[Errno 2\] No such file or directory: '([^']+)'"` -/
def pat_bp2 : RPattern :=
  ⟨[.lit "IOError: [Errno 2] No such file or directory: \x27".toList],
   some [.plus (.notChar '\x27')], [.lit "\x27".toList]⟩

/-- `r"SyntaxError: (.+)"` -/
def pat_se1 : RPattern :=
  ⟨[.lit "SyntaxError: ".toList], some [.plus .notNewline], []⟩

/-- `r"IndentationError: (.+)"` -/
def pat_se2 : RPattern :=
  ⟨[.lit "IndentationError: ".toList], some [.plus .notNewline], []⟩

/-- `CILogAnalyzer.PATTERNS`: the category → pattern-list table, in the dict's
insertion order (Python dicts preserve declaration order). -/
def PATTERNS : List (FailureType × List RPattern) :=
  [(.module_not_found, [pat_mnf1, pat_mnf2, pat_mnf3]),
   (.import_error, [pat_ie1, pat_ie2]),
   (.missing_dependency, [pat_md1, pat_md2, pat_md3]),
   (.broken_path, [pat_bp1, pat_bp2]),
   (.syntax_error, [pat_se1, pat_se2])]

/-- The keyword list of `_extract_error_lines`. -/
def keywords : List (List Char) :=
  ["error".toList, "failed".toList, "exception".toList,
   "traceback".toList, "modulenotfounderror".toList]

/-- `any(keyword in line.lower() for keyword in keywords)`; `line.lower()`
is the concatenation of the per-character lowercases. -/
def line_has_keyword (line : List Char) : Bool :=
  keywords.any fun k => containsSub k (line.flatMap lowerChars)

/-- The log split into lines, as in `log_content.split('\n')`. -/
def logLines (log : String) : List (List Char) := splitLines log.toList

/-- `CILogAnalyzer._extract_error_lines`: for every line containing a keyword
(case-insensitively), extend the accumulator with the context window
`lines[max(0, i-2) : min(len(lines), i+6)]`; `Nat` subtraction saturates at 0
(the lower clip) and `List.take` stops at the end of the list (the upper
clip), so `(lines.drop (i-2)).take ((i+6)-(i-2))` is exactly that slice. -/
def extract_error_lines (log : String) : List (List Char) :=
  let lines := logLines log
  (List.range lines.length).foldl
    (fun acc i =>
      if line_has_keyword lines[i]! then
        acc ++ ((lines.drop (i - 2)).take ((i + 6) - (i - 2)))
      else acc)
    []

/-- Run one pattern against the whole log text, as
`re.search(pattern, log_content, re.MULTILINE)` (no pattern uses `^`/`$`, so
the flag has no effect); returns `(group(0), group(1))`. -/
def pattern_search (p : RPattern) (log : String) : Option (String × Option String) :=
  (reSearch p log.toList).map fun r => (String.mk r.1, r.2.map String.mk)

/-- The analyzer's double loop over `PATTERNS`: first matching pattern of the
first matching category wins, in table order. -/
def find_pattern_match (log : String) : Option (FailureType × String × Option String) :=
  PATTERNS.findSome? fun e =>
    e.2.findSome? fun p => (pattern_search p log).map fun r => (e.1, r.1, r.2)

/-- The `details` dict written on a match: `missing_module` for
`MODULE_NOT_FOUND`, `missing_path` for `BROKEN_PATH`, and `package_name` for
`MISSING_DEPENDENCY` guarded by `if match.groups():` (every `MODULE_NOT_FOUND`
and `BROKEN_PATH` pattern has a capture group, so their `match.group(1)`
accesses always succeed). -/
def details_for (ft : FailureType) (grp : Option String) : List (String × String) :=
  match ft, grp with
  | .module_not_found, some g => [("missing_module", g)]
  | .broken_path, some g => [("missing_path", g)]
  | .missing_dependency, some g => [("package_name", g)]
  | _, _ => []

/-- `CILogAnalyzer.analyze`. -/
def analyze (log : String) : Diagnosis :=
  let error_lines := extract_error_lines log
  if error_lines.isEmpty then
    ⟨.unknown, "", [], 0, ""⟩
  else
    let snippet := String.mk (joinLines (error_lines.take 10))
    match find_pattern_match log with
    | some (ft, msg, grp) => ⟨ft, msg, details_for ft grp, q09, snippet⟩
    | none => ⟨.unknown, "", [], q03, snippet⟩

example :
    (analyze "Traceback (most recent call last):\n  File \"test_api.py\", line 5, in test_api_call\n    imp requests\nModuleNotFoundError: No module named \x27requests\x27").failure_type = .module_not_found := by decide

example :
    (analyze "ModuleNotFoundError: No module named \x27requests\x27").details
      = [("missing_module", "requests")] := by decide

example :
    (analyze "FileNotFoundError: [Errno 2] No such file or directory: \x27config/settings.json\x27").details
      = [("missing_path", "config/settings.json")] := by decide

example : (analyze "all is well").confidence = 0 := by decide

example : (analyze "weird error happened").confidence = q03 := by decide

example : (analyze "error: externally-managed-environment").details = [] := by decide

example :
    (analyze "ERROR: No matching distribution found for numpy").details
      = [("package_name", "numpy")] := by decide

example : line_has_keyword "tracebac\u212A".toList = true := by decide

example : (analyze "tracebac\u212A").confidence = q03 := by decide

example : line_has_keyword "FA\u0130LED".toList = false := by decide

example :
    pattern_search pat_mnf2 "ImportError: No module named foo\xa0bar"
      = some ("ImportError: No module named foo", some "foo") := by decide

/-! ### JSON values and `json.loads`

The fix generator parses the completion service's response with
`json.loads`. JSON values are modelled by `Json` (numbers as `Rat`; the
non-standard `NaN`/`Infinity` extensions of Python's parser have no rational
value and are not modelled, and error messages are condensed to their leading
tag). The parser follows Python's strict JSON grammar: leftmost-longest
tokens, `'0'`-prefixed integer parts stop after the zero, no trailing
garbage, no unescaped control characters in strings. -/

inductive Json where
  | null
  | bool (b : Bool)
  | num (q : Rat)
  | str (s : String)
  | arr (elems : List Json)
  | obj (fields : List (String × Json))

/-- Skip JSON whitespace. -/
def jskip : List Char → List Char :=
  List.dropWhile fun c => c == ' ' || c == '\t' || c == '\n' || c == '\r'

def hexVal (c : Char) : Option Nat :=
  if '0' ≤ c && c ≤ '9' then some (c.toNat - 48)
  else if 'a' ≤ c && c ≤ 'f' then some (c.toNat - 87)
  else if 'A' ≤ c && c ≤ 'F' then some (c.toNat - 55)
  else none

/-- Parse the body of a JSON string (after the opening quote), returning the
decoded characters and the remainder after the closing quote. -/
def jstringChars : Nat → List Char → Option (List Char × List Char)
  | 0, _ => none
  | fuel + 1, s =>
    match s with
    | [] => none
    | '"' :: rest => some ([], rest)
    | '\\' :: e :: rest =>
      let cont := fun (c : Char) (r : List Char) =>
        (jstringChars fuel r).map fun pr => (c :: pr.1, pr.2)
      match e with
      | '"' => cont '"' rest
      | '\\' => cont '\\' rest
      | '/' => cont '/' rest
      | 'b' => cont '\x08' rest
      | 'f' => cont '\x0c' rest
      | 'n' => cont '\n' rest
      | 'r' => cont '\r' rest
      | 't' => cont '\t' rest
      | 'u' =>
        match rest with
        | a :: b :: c :: d :: rest2 =>
          match hexVal a, hexVal b, hexVal c, hexVal d with
          | some va, some vb, some vc, some vd =>
            cont (Char.ofNat (((va * 16 + vb) * 16 + vc) * 16 + vd)) rest2
          | _, _, _, _ => none
        | _ => none
      | _ => none
    | c :: rest =>
      if c.toNat < 32 then none
      else (jstringChars fuel rest).map fun pr => (c :: pr.1, pr.2)

def digitsToNat (ds : List Char) : Nat :=
  ds.foldl (fun a c => 10 * a + (c.toNat - 48)) 0

/-- Parse a JSON number (Python's `NUMBER_RE`): optional minus,
`0 | [1-9][0-9]*`, optional fraction, optional exponent; a dot or exponent
marker not followed by digits is left unconsumed. -/
def jnumber (s : List Char) : Option (Rat × List Char) :=
  let (neg, s1) :=
    match s with
    | '-' :: r => (true, r)
    | _ => (false, s)
  let intDigits : List Char :=
    match s1 with
    | '0' :: _ => ['0']
    | _ => s1.takeWhile Char.isDigit
  if intDigits.isEmpty then none
  else
    let s2 := s1.drop intDigits.length
    let fracDigits : List Char :=
      match s2 with
      | '.' :: r => r.takeWhile Char.isDigit
      | _ => []
    let s3 := if fracDigits.isEmpty then s2 else s2.drop (fracDigits.length + 1)
    let expDigits : Option (Bool × List Char) :=
      match s3 with
      | 'e' :: '-' :: r => if (r.takeWhile Char.isDigit).isEmpty then none else some (true, r.takeWhile Char.isDigit)
      | 'E' :: '-' :: r => if (r.takeWhile Char.isDigit).isEmpty then none else some (true, r.takeWhile Char.isDigit)
      | 'e' :: '+' :: r => if (r.takeWhile Char.isDigit).isEmpty then none else some (false, r.takeWhile Char.isDigit)
      | 'E' :: '+' :: r => if (r.takeWhile Char.isDigit).isEmpty then none else some (false, r.takeWhile Char.isDigit)
      | 'e' :: r => if (r.takeWhile Char.isDigit).isEmpty then none else some (false, r.takeWhile Char.isDigit)
      | 'E' :: r => if (r.takeWhile Char.isDigit).isEmpty then none else some (false, r.takeWhile Char.isDigit)
      | _ => none
    let s4 :=
      match expDigits with
      | none => s3
      | some (negSign, ds) =>
        match s3 with
        | _ :: '-' :: _ => s3.drop (ds.length + 2)
        | _ :: '+' :: _ => if negSign then s3.drop (ds.length + 2) else s3.drop (ds.length + 2)
        | _ => s3.drop (ds.length + 1)
    let mantissa : Rat :=
      (digitsToNat intDigits * 10 ^ fracDigits.length + digitsToNat fracDigits : Nat) /
        (10 ^ fracDigits.length : Nat)
    let scaled : Rat :=
      match expDigits with
      | none => mantissa
      | some (true, ds) => mantissa / 10 ^ digitsToNat ds
      | some (false, ds) => mantissa * 10 ^ digitsToNat ds
    some (if neg then -scaled else scaled, s4)

/-- Parse the members of a JSON object after the opening brace (nonempty
case), `jv` being the value parser for the enclosing nesting level. -/
def jmembersF (jv : List Char → Option (Json × List Char)) :
    Nat → List Char → Option (List (String × Json) × List Char)
  | 0, _ => none
  | fuel + 1, s =>
    match jskip s with
    | '"' :: r =>
      match jstringChars (r.length + 1) r with
      | none => none
      | some (key, r2) =>
        match jskip r2 with
        | ':' :: r3 =>
          match jv r3 with
          | none => none
          | some (v, r4) =>
            match jskip r4 with
            | ',' :: r5 => (jmembersF jv fuel r5).map fun m => ((String.mk key, v) :: m.1, m.2)
            | '\x7d' :: r5 => some ([(String.mk key, v)], r5)
            | _ => none
        | _ => none
    | _ => none

/-- Parse the elements of a JSON array after the opening bracket (nonempty
case). -/
def jitemsF (jv : List Char → Option (Json × List Char)) :
    Nat → List Char → Option (List Json × List Char)
  | 0, _ => none
  | fuel + 1, s =>
    match jv s with
    | none => none
    | some (v, r) =>
      match jskip r with
      | ',' :: r2 => (jitemsF jv fuel r2).map fun m => (v :: m.1, m.2)
      | ']' :: r2 => some ([v], r2)
      | _ => none

/-- Parse one JSON value; `fuel` bounds the nesting depth. -/
def jvalue : Nat → List Char → Option (Json × List Char)
  | 0, _ => none
  | fuel + 1, s =>
    match jskip s with
    | '\x7b' :: r =>
      match jskip r with
      | '\x7d' :: r2 => some (.obj [], r2)
      | r2 => (jmembersF (jvalue fuel) (r2.length + 1) r2).map fun m => (.obj m.1, m.2)
    | '[' :: r =>
      match jskip r with
      | ']' :: r2 => some (.arr [], r2)
      | r2 => (jitemsF (jvalue fuel) (r2.length + 1) r2).map fun m => (.arr m.1, m.2)
    | '"' :: r => (jstringChars (r.length + 1) r).map fun pr => (.str (String.mk pr.1), pr.2)
    | s' =>
      if startsWithL "true".toList s' then some (.bool true, s'.drop 4)
      else if startsWithL "false".toList s' then some (.bool false, s'.drop 5)
      else if startsWithL "null".toList s' then some (.null, s'.drop 4)
      else (jnumber s').map fun pr => (.num pr.1, pr.2)

/-- `json.loads`: parse a complete JSON document, rejecting trailing
non-whitespace ("Extra data") and unparseable input ("Expecting value"). -/
def json_loads (s : String) : Except String Json :=
  match jvalue (s.length + 1) s.toList with
  | some (v, rest) => if (jskip rest).isEmpty then .ok v else .error "Extra data"
  | none => .error "Expecting value"

example : json_loads "\x7b\x7d" = .ok (.obj []) := rfl

example : json_loads "not json" = .error "Expecting value" := rfl

example :
    json_loads "\x7b\"a\": [true, null, \"x\"]\x7d"
      = .ok (.obj [("a", .arr [.bool true, .null, .str "x"])]) := rfl

example : json_loads "\x7b\x7d extra" = .error "Extra data" := rfl

/-! ### `src/agent/fix_genertor.py` -/

/-- The errors that can surface from the embedded Python code.
`jsonDecodeError` is `json.JSONDecodeError` escaping from `json.loads`;
`keyError` and `typeError` are dict-access/format failures in the
orchestrator's report rendering. `malformedResponseError` is Modelled from
the spec: §7 requires a typed `MalformedResponseError` for completion output
that is not a well-formed FixProposal, but no such error type exists anywhere
in the code — the constructor exists here only so that the requirement can be
stated and compared against the code's behaviour. -/
inductive PyError where
  | jsonDecodeError (msg : String)
  | keyError (key : String)
  | typeError (msg : String)
  | malformedResponseError
deriving DecidableEq, Repr

/-- Python `dict.get(k)` on the string→string details dict. -/
def lookupS (d : List (String × String)) (k : String) : Option String :=
  (d.find? fun kv => kv.1 == k).map fun kv => kv.2

/-- One request to the opaque text-completion service
(`client.chat.completions.create`): model name, (role, content) messages and
temperature. -/
structure CompletionRequest where
  model : String
  messages : List (String × String)
  temperature : Rat
deriving DecidableEq, Repr

/-- Python `str(details_dict)` for a string→string dict, used when the
generic prompt embeds `{error_details}`. -/
def py_dict_repr (d : List (String × String)) : String :=
  "\x7b" ++ String.intercalate ", "
    (d.map fun kv => "\x27" ++ kv.1 ++ "\x27: \x27" ++ kv.2 ++ "\x27") ++ "\x7d"

/-- The prompt of `FixGenerator._fix_missing_import`. -/
def mnf_prompt (missing_module file_path file_content : String) : String :=
  "You are a Python code expert. A CI test failed with a ModuleNotFoundError.\n\nError: Missing module \x27" ++ missing_module ++ "\x27\nFile: " ++ file_path ++ "\n\nCurrent file content:\n```python\n" ++ file_content ++ "\n```\n\nTask: Generate the MINIMAL fix to resolve this import error.\n- If the module should be imported, add the import statement\n- If it\x27s a typo, fix the import name\n- If it\x27s a missing package, indicate that in requirements.txt\n\nRespond in JSON format:\n\x7b\n  \"fix_type\": \"add_import\" | \"fix_import\" | \"add_dependency\",\n  \"changes\": [\n    \x7b\n      \"file\": \"path/to/file\",\n      \"action\": \"insert\" | \"replace\" | \"delete\",\n      \"line_number\": 5,\n      \"old_content\": \"...\",\n      \"new_content\": \"...\"\n    \x7d\n  ],\n  \"explanation\": \"Brief explanation of the fix\",\n  \"confidence\": 0.9\n\x7d\n\nRespond ONLY with valid JSON, no other text."

/-- The completion request issued by `_fix_missing_import` (system message,
user prompt, `temperature=0.3`). -/
def mnf_request (error_details : List (String × String)) (file_content file_path mdl : String) :
    CompletionRequest :=
  ⟨mdl,
   [("system", "You are a code repair assistant. Respond only with valid JSON."),
    ("user", mnf_prompt ((lookupS error_details "missing_module").getD "") file_path file_content)],
   q03⟩

/-- The prompt of `FixGenerator._fix_broken_path`. -/
def bp_prompt (missing_path file_content : String) : String :=
  "You are a Python code expert. A file path error occurred.\n\nError: File not found \x27" ++ missing_path ++ "\x27\n\nFile content with the broken path:\n```python\n" ++ file_content ++ "\n```\n\nTask: Suggest the correct path or identify what file needs to be created.\n\nRespond in JSON format:\n\x7b\n  \"fix_type\": \"fix_path\" | \"create_file\",\n  \"changes\": [...],\n  \"explanation\": \"...\",\n  \"confidence\": 0.8\n\x7d"

/-- The completion request issued by `_fix_broken_path` (single user
message, `temperature=0.3`). -/
def bp_request (error_details : List (String × String)) (file_content mdl : String) :
    CompletionRequest :=
  ⟨mdl, [("user", bp_prompt ((lookupS error_details "missing_path").getD "") file_content)], q03⟩

/-- The prompt of `FixGenerator._generic_fix`. -/
def generic_prompt (ft : FailureType) (error_details : List (String × String))
    (file_content : String) : String :=
  "Analyze this CI failure and suggest a minimal fix.\n\nFailure Type: " ++ ft.value ++ "\nError Details: " ++ py_dict_repr error_details ++ "\n\nFile content:\n```python\n" ++ file_content ++ "\n```\n\nProvide a minimal, surgical fix in JSON format."

/-- The completion request issued by `_generic_fix`. -/
def generic_request (ft : FailureType) (error_details : List (String × String))
    (file_content mdl : String) : CompletionRequest :=
  ⟨mdl, [("user", generic_prompt ft error_details file_content)], q03⟩

/-- `FixGenerator._fix_missing_import`: ask the completion service and return
`json.loads` of the response verbatim; the second component counts completion
calls. -/
def fix_missing_import (error_details : List (String × String))
    (file_content file_path mdl : String) (completion : CompletionRequest → String) :
    Except PyError Json × Nat :=
  ((json_loads (completion (mnf_request error_details file_content file_path mdl))).mapError
     PyError.jsonDecodeError, 1)

/-- `FixGenerator._fix_missing_dependency`: fully deterministic — a single
`insert` change op appending `"<package>\n"` to `requirements.txt` with the
sentinel line number `-1` and confidence `0.85`; `package_name` defaults to
`""` when absent. -/
def fix_missing_dependency (error_details : List (String × String)) : Json :=
  let package_name := (lookupS error_details "package_name").getD ""
  .obj
    [("fix_type", .str "add_dependency"),
     ("changes", .arr
       [.obj
         [("file", .str "requirements.txt"),
          ("action", .str "insert"),
          ("line_number", .num (-1)),
          ("old_content", .str ""),
          ("new_content", .str (package_name ++ "\n"))]]),
     ("explanation", .str ("Add missing dependency \x27" ++ package_name ++ "\x27 to requirements.txt")),
     ("confidence", .num q085)]

/-- `FixGenerator._fix_broken_path`. -/
def fix_broken_path (error_details : List (String × String))
    (file_content mdl : String) (completion : CompletionRequest → String) :
    Except PyError Json × Nat :=
  ((json_loads (completion (bp_request error_details file_content mdl))).mapError
     PyError.jsonDecodeError, 1)

/-- `FixGenerator._generic_fix`. -/
def generic_fix (ft : FailureType) (error_details : List (String × String))
    (file_content mdl : String) (completion : CompletionRequest → String) :
    Except PyError Json × Nat :=
  ((json_loads (completion (generic_request ft error_details file_content mdl))).mapError
     PyError.jsonDecodeError, 1)

/-- `FixGenerator.generate_fix`: dispatch on the failure category. -/
def generate_fix (ft : FailureType) (error_details : List (String × String))
    (file_content file_path mdl : String) (completion : CompletionRequest → String) :
    Except PyError Json × Nat :=
  match ft with
  | .module_not_found => fix_missing_import error_details file_content file_path mdl completion
  | .missing_dependency => (.ok (fix_missing_dependency error_details), 0)
  | .broken_path => fix_broken_path error_details file_content mdl completion
  | _ => generic_fix ft error_details file_content mdl completion

/-! ### `src/agent/orchestrator.py` -/

/-- One CI check run as consumed by the orchestrator (`id`, `name`,
`conclusion`; `conclusion` is `dict.get`-style optional). -/
structure CheckRun where
  id : Nat
  name : String
  conclusion : Option String
deriving DecidableEq, Repr

/-- The PR metadata the pipeline reads (`title`, `head.ref`). -/
structure PRInfo where
  title : String
  head_ref : String
deriving DecidableEq, Repr

/-- The external collaborators of one pipeline run, as pure oracles: the
source-control service's answers and the completion service. -/
structure Env where
  pr_info : PRInfo
  check_runs : List CheckRun
  check_logs : Nat → String
  pr_diff : String
  file_content : String → String → String
  completion : CompletionRequest → String
  model : String

/-- How often each external collaborator (and the analyzer and fix
generator) was invoked during a run. -/
structure Trace where
  get_pr_info : Nat
  get_pr_checks : Nat
  get_check_logs : Nat
  analyze_calls : Nat
  get_pr_diff : Nat
  get_file_content : Nat
  generate_fix_calls : Nat
  completion_calls : Nat
  post_comment : Nat
deriving DecidableEq, Repr

/-- The pipeline's terminal outcomes (the dicts returned by
`process_pr_failure`, keyed by their `status` field). -/
inductive PipelineResult where
  | no_failures (message : String)
  | low_confidence (diagnosis : Diagnosis) (message : String)
  | file_not_found (diagnosis : Diagnosis) (message : String)
  | success (diagnosis : Diagnosis) (fix : Json) (affected_file : String)

/-- `r"\+\+\+ b/(.+\.py)"`, the unified-diff header pattern of
`_locate_affected_file`. -/
def diff_file_pat : RPattern :=
  ⟨[.lit "+++ b/".toList], some [.plus .notNewline, .lit ".py".toList], []⟩

/-- `r"File \"([^\"]+\.py)\""`, the traceback file-reference pattern of
`_locate_affected_file`. -/
def snippet_file_pat : RPattern :=
  ⟨[.lit "File \"".toList], some [.plus (.notChar '"'), .lit ".py".toList], [.lit "\"".toList]⟩

/-- Python `str.lstrip('./')`: remove ALL leading characters belonging to
the set `{'.', '/'}` (not merely one leading `"./"` occurrence). -/
def lstrip_dot_slash (s : String) : String :=
  String.mk (s.toList.dropWhile fun c => c == '.' || c == '/')

/-- The first capture of the `+++ b/<path>.py` diff-header pattern
(`re.findall(...)[0]`, and the first `findall` element is the leftmost
match). -/
def first_diff_py_file (diff : String) : Option String :=
  (reSearch diff_file_pat diff.toList).bind fun r => r.2.map String.mk

/-- The first `File "<path>.py"` reference in a snippet, `lstrip('./')`
applied. -/
def snippet_file_ref (snippet : String) : Option String :=
  (reSearch snippet_file_pat snippet.toList).bind fun r =>
    r.2.map fun g => lstrip_dot_slash (String.mk g)

/-- `DietCodeAgent._locate_affected_file`: when the details contain
`missing_module`, try the first `.py` path of the PR diff; in every other
case (including a diff without any match) fall through to the snippet's
first traceback file reference; `none` when both fail. -/
def locate_affected_file (diff : String) (d : Diagnosis) : Option String :=
  let from_diff :=
    if (lookupS d.details "missing_module").isSome then first_diff_py_file diff
    else none
  match from_diff with
  | some f => some f
  | none => snippet_file_ref d.log_snippet

/-- Python `str(value)` of a JSON value as rendered into an f-string
(strings verbatim, `True`/`False`/`None`, containers in repr form; numeric
rendering approximates Python's, which is irrelevant to every claim). -/
def json_py_repr : Json → String
  | .str s => "\x27" ++ s ++ "\x27"
  | .bool true => "True"
  | .bool false => "False"
  | .null => "None"
  | .num q => if q.den = 1 then toString q.num else toString q
  | .arr xs => "[" ++ String.intercalate ", " (xs.attach.map fun x => json_py_repr x.1) ++ "]"
  | .obj fs =>
    "\x7b" ++ String.intercalate ", "
      (fs.attach.map fun f => "\x27" ++ f.1.1 ++ "\x27: " ++ json_py_repr f.1.2) ++ "\x7d"
termination_by j => sizeOf j
decreasing_by
  · simp_wf
    have := List.sizeOf_lt_of_mem x.2
    omega
  · simp_wf
    have h := List.sizeOf_lt_of_mem f.2
    obtain ⟨⟨a, b⟩, hf⟩ := f
    simp only [Prod.mk.sizeOf_spec] at h
    simp only []
    omega

/-- Top-level f-string conversion: strings are inserted verbatim, everything
else in repr form. -/
def json_to_py_str (j : Json) : String :=
  match j with
  | .str s => s
  | j => json_py_repr j

/-- Python `"{:.0%}".format(x)` (rounding to a whole percent; the embedding
rounds the rational exactly, Python rounds the nearest binary double — equal
on every value this program produces). -/
def format_percent (q : Rat) : String :=
  toString (round (q * 100) : Int) ++ "%"

/-- Dict lookup `j[k]`; `none` both for a missing key and for a non-dict
(Python raises `KeyError` resp. `TypeError`; both are modelled by the caller
returning an error). -/
def jget (j : Json) (k : String) : Option Json :=
  match j with
  | .obj fs => (fs.find? fun kv => kv.1 == k).map fun kv => kv.2
  | _ => none

/-- One iteration of `_format_changes_detail`'s loop: the `+`/`-` lines
contributed by one change dict (unknown actions contribute nothing). -/
def format_one_change_detail (change : Json) : Except PyError (List String) := do
  let action ← match jget change "action" with
    | some a => pure a
    | none => .error (.keyError "action")
  let actionStr : Option String := match action with | .str s => some s | _ => none
  match actionStr with
  | some "insert" =>
    match jget change "new_content" with
    | some v => pure ["+ " ++ json_to_py_str v]
    | none => .error (.keyError "new_content")
  | some "replace" =>
    match jget change "old_content", jget change "new_content" with
    | some o, some n => pure ["- " ++ json_to_py_str o, "+ " ++ json_to_py_str n]
    | none, _ => .error (.keyError "old_content")
    | _, none => .error (.keyError "new_content")
  | some "delete" =>
    match jget change "old_content" with
    | some v => pure ["- " ++ json_to_py_str v]
    | none => .error (.keyError "old_content")
  | _ => pure []

/-- `DietCodeAgent._format_changes_detail`. -/
def format_changes_detail (changes : List Json) : Except PyError String := do
  let parts ← changes.foldlM (fun acc change => do
    let more ← format_one_change_detail change
    pure (acc ++ more)) ([] : List String)
  pure (String.intercalate "\n" parts)

/-- The per-change summary bullet of `_format_fix_comment`
(`- **<file>** (line <n>): <action>` with `'N/A'` when `line_number` is
absent). -/
def change_summary_line (c : Json) : Except PyError String := do
  let file ← match jget c "file" with
    | some v => pure v
    | none => .error (.keyError "file")
  let action ← match jget c "action" with
    | some v => pure v
    | none => .error (.keyError "action")
  let ln := match jget c "line_number" with
    | some v => json_to_py_str v
    | none => "N/A"
  pure ("- **" ++ json_to_py_str file ++ "** (line " ++ ln ++ "): " ++ json_to_py_str action)

/-- `DietCodeAgent._format_fix_comment`: the Markdown report posted on the
PR. Dict accesses evaluate in the code's order (`fix['changes']` and the
summary lines first, then `fix['explanation']`, `fix['confidence']`, then
the detail rendering). -/
def format_fix_comment (d : Diagnosis) (fix : Json) (check_name : String) :
    Except PyError String := do
  let changes ← match jget fix "changes" with
    | some (.arr cs) => pure cs
    | some _ => .error (.typeError "changes is not a list")
    | none => .error (.keyError "changes")
  let summaries ← changes.mapM change_summary_line
  let changes_text := String.intercalate "\n" summaries
  let explanation ← match jget fix "explanation" with
    | some v => pure (json_to_py_str v)
    | none => .error (.keyError "explanation")
  let fix_conf ← match jget fix "confidence" with
    | some (.num q) => pure (format_percent q)
    | some _ => .error (.typeError "unsupported format string")
    | none => .error (.keyError "confidence")
  let detail ← format_changes_detail changes
  pure ("## 🤖 DietCode CI Fix Suggestion\n\n**CI Check Failed:** `" ++ check_name
    ++ "`\n\n### 📊 Diagnosis\n- **Failure Type:** `" ++ d.failure_type.value
    ++ "`\n- **Error:** `" ++ d.error_message
    ++ "`\n- **Confidence:** " ++ format_percent d.confidence
    ++ "\n\n### 🔧 Proposed Fix\n" ++ explanation
    ++ "\n\n**Changes:**\n" ++ changes_text
    ++ "\n\n**Fix Confidence:** " ++ fix_conf
    ++ "\n\n### ✅ Approval\nTo apply this fix, reply with: `/dietcode apply`\nTo reject this fix, reply with: `/dietcode reject`\n\n---\n<details>\n<summary>View detailed changes</summary>\n```python\n"
    ++ detail
    ++ "\n```\n</details>\n\n*This is an automated fix generated by DietCode. Please review carefully before applying.*\n")

/-- The Step-7 progress print (`fix['fix_type']`,
`fix['confidence']:.0%`) evaluated for its dict accesses, which happen
before the comment is formatted. -/
def fix_progress_check (fix : Json) : Option PyError :=
  match jget fix "fix_type" with
  | none => some (.keyError "fix_type")
  | some _ =>
    match jget fix "confidence" with
    | none => some (.keyError "confidence")
    | some (.num _) => none
    | some _ => some (.typeError "unsupported format string")

/-- `DietCodeAgent.process_pr_failure`: the full pipeline over the external
collaborators in `env`, with `confidence_threshold` as configured at
construction (default `0.7`). Returns the terminal `PipelineResult` (or the
propagated error) together with the collaborator-call trace. -/
def process_pr_failure (env : Env) (confidence_threshold : Rat) :
    Except PyError PipelineResult × Trace :=
  -- Steps 1-2: fetch PR info and check runs, filter to failed checks.
  let failed_checks := env.check_runs.filter fun c => c.conclusion == some "failure"
  match failed_checks with
  | [] => (.ok (.no_failures "No failed CI checks found"), ⟨1, 1, 0, 0, 0, 0, 0, 0, 0⟩)
  | check :: _ =>
    -- Steps 3-4: fetch the first failed check's logs and diagnose.
    let logs := env.check_logs check.id
    let diagnosis := analyze logs
    if diagnosis.confidence < confidence_threshold then
      (.ok (.low_confidence diagnosis "Unable to confidently diagnose the failure"),
       ⟨1, 1, 1, 1, 0, 0, 0, 0, 0⟩)
    else
      -- Step 5: locate the affected file (the diff is fetched exactly when
      -- the details contain `missing_module`).
      let diff_calls := if (lookupS diagnosis.details "missing_module").isSome then 1 else 0
      match locate_affected_file env.pr_diff diagnosis with
      | none =>
        (.ok (.file_not_found diagnosis "Could not locate the affected file"),
         ⟨1, 1, 1, 1, diff_calls, 0, 0, 0, 0⟩)
      | some affected_file =>
        -- Steps 6-7: fetch the file at the PR head ref and generate a fix.
        let file_content := env.file_content affected_file env.pr_info.head_ref
        let fix_run := generate_fix diagnosis.failure_type diagnosis.details file_content
          affected_file env.model env.completion
        match fix_run.1 with
        | .error e => (.error e, ⟨1, 1, 1, 1, diff_calls, 1, 1, fix_run.2, 0⟩)
        | .ok fix =>
          match fix_progress_check fix with
          | some e => (.error e, ⟨1, 1, 1, 1, diff_calls, 1, 1, fix_run.2, 0⟩)
          | none =>
            -- Step 8: render the comment, then post it.
            match format_fix_comment diagnosis fix check.name with
            | .error e => (.error e, ⟨1, 1, 1, 1, diff_calls, 1, 1, fix_run.2, 0⟩)
            | .ok _body =>
              (.ok (.success diagnosis fix affected_file),
               ⟨1, 1, 1, 1, diff_calls, 1, 1, fix_run.2, 1⟩)

/-! ### Definitions written from the specification's words

These restate, independently of the code path, what the spec claims; the
theorems below compare them with the embedded code. -/

/-- Does any pattern of the table entry `e` match the log? -/
def table_entry_matches (log : String) (e : FailureType × List RPattern) : Bool :=
  e.2.any fun p => (reSearch p log.toList).isSome

/-- Does some pattern of the category `ft` match the log (a property of the
log text, independent of the analyzer's control flow)? -/
def category_matches (ft : FailureType) (log : String) : Bool :=
  PATTERNS.any fun e => e.1 == ft && table_entry_matches log e

/-- Does any pattern of any category match the log? -/
def some_pattern_matches (log : String) : Bool :=
  PATTERNS.any (table_entry_matches log)

/-- The category whose pattern-table entry appears first in table order
among all matching categories (the spec's claimed selection rule). -/
def first_matching_category (log : String) : Option FailureType :=
  (PATTERNS.find? (table_entry_matches log)).map fun e => e.1

/-- The spec's claimed selection: first matching category in table order,
and within it the first listed matching pattern's `group(0)`. -/
def claimed_selection (log : String) : Option (FailureType × String) :=
  (PATTERNS.find? (table_entry_matches log)).bind fun e =>
    e.2.findSome? fun p => (pattern_search p log).map fun r => (e.1, r.1)

/-- The indexes of the keyword-bearing lines. -/
def keyword_line_indexes (lines : List (List Char)) : List Nat :=
  (List.range lines.length).filter fun i => line_has_keyword lines[i]!

/-- The spec's description of the snippet source: for each keyword line
index `i`, the window `[i-2, i+6)` clipped to the log's bounds (realized by
saturating `Nat` subtraction and `List.take`), all windows concatenated in
line order without deduplication. -/
def context_windows (log : String) : List (List Char) :=
  (keyword_line_indexes (logLines log)).flatMap fun i =>
    ((logLines log).drop (i - 2)).take ((i + 6) - (i - 2))

/-- Modelled from the spec: the claim's reading of the path clean-up —
remove one leading `"./"` occurrence when present (the code instead runs
`lstrip('./')`, which strips every leading `'.'` and `'/'`). -/
def strip_leading_dot_slash (s : String) : String :=
  if startsWithL "./".toList s.toList then String.mk (s.toList.drop 2) else s

/-- The raw first `File "<path>.py"` reference of a snippet, before any
clean-up. -/
def snippet_first_path (snippet : String) : Option String :=
  (reSearch snippet_file_pat snippet.toList).bind fun r => r.2.map String.mk

/-- Modelled from the spec: the claim's traceback reference pattern
`File "<path>"`, with no constraint on the path's extension (the code's
regex instead requires the path to end in `.py`). -/
def file_ref_any_pat : RPattern :=
  ⟨[.lit "File \"".toList], some [.plus (.notChar '"')], [.lit "\"".toList]⟩

/-- Modelled from the spec: the first `File "<path>"` reference of a
snippet, any extension, before any clean-up. -/
def snippet_first_any_ref (snippet : String) : Option String :=
  (reSearch file_ref_any_pat snippet.toList).bind fun r => r.2.map String.mk

/-- Modelled from the spec (§3): a well-formed ChangeOp is a dict with a
string `file`, an `action` among `insert`/`replace`/`delete`, an optional
numeric `line_number`, and string `old_content`/`new_content`. -/
def is_well_formed_change_op (j : Json) : Bool :=
  (match jget j "file" with | some (.str _) => true | _ => false) &&
  (match jget j "action" with
   | some (.str a) => a == "insert" || a == "replace" || a == "delete"
   | _ => false) &&
  (match jget j "line_number" with | none => true | some (.num _) => true | _ => false) &&
  (match jget j "old_content" with | some (.str _) => true | _ => false) &&
  (match jget j "new_content" with | some (.str _) => true | _ => false)

/-- Modelled from the spec (§3, §7): the minimal shape of a FixProposal —
required fields present and `changes` a sequence of well-formed ChangeOps. -/
def is_well_formed_fix_proposal (j : Json) : Bool :=
  (match jget j "fix_type" with | some (.str _) => true | _ => false) &&
  (match jget j "changes" with
   | some (.arr cs) => cs.all is_well_formed_change_op
   | _ => false) &&
  (match jget j "explanation" with | some (.str _) => true | _ => false) &&
  (match jget j "confidence" with
   | some (.num q) => decide ((0 : Rat) ≤ q) && decide (q ≤ (1 : Rat))
   | _ => false)

/-! ### General helper lemmas -/

theorem findSome?_eq_bind_find? {α β : Type _} (f : α → Option β) (l : List α) :
    l.findSome? f = (l.find? fun a => (f a).isSome).bind f := by
  induction l with
  | nil => rfl
  | cons a l ih =>
    cases hfa : f a with
    | none =>
      rw [List.findSome?_cons_of_isNone _ (by simp [hfa]), ih]
      simp [List.find?, hfa]
    | some b =>
      rw [List.findSome?_cons_of_isSome _ (by simp [hfa])]
      simp [List.find?, hfa]

theorem findSome?_isSome_eq_any {α β : Type _} (f : α → Option β) (l : List α) :
    (l.findSome? f).isSome = l.any fun a => (f a).isSome := by
  induction l with
  | nil => rfl
  | cons a l ih =>
    cases hfa : f a with
    | none =>
      rw [List.findSome?_cons_of_isNone _ (by simp [hfa]), ih, List.any_cons, hfa]
      simp
    | some b =>
      rw [List.findSome?_cons_of_isSome _ (by simp [hfa]), List.any_cons, hfa]
      simp

theorem foldl_if_append {α β : Type _} (p : α → Bool) (w : α → List β) :
    ∀ (l : List α) (acc : List β),
      l.foldl (fun acc i => if p i then acc ++ w i else acc) acc
        = acc ++ (l.filter p).flatMap w := by
  intro l
  induction l with
  | nil => intro acc; simp
  | cons a l ih =>
    intro acc
    by_cases h : p a <;> simp [List.filter_cons, h, ih, List.append_assoc]

theorem startsWithL_length : ∀ (p s : List Char), startsWithL p s = true → p.length ≤ s.length := by
  intro p
  induction p with
  | nil => intro s _; exact Nat.zero_le _
  | cons c p ih =>
    intro s h
    cases s with
    | nil => exact absurd h (by simp [startsWithL])
    | cons c2 s2 =>
      rw [startsWithL, Bool.and_eq_true] at h
      simpa [List.length_cons, Nat.succ_le_succ_iff] using ih s2 h.2

theorem matchSeq_some_imp {α : Type} :
    ∀ (items : List RItem) (s : List Char) (k : List Char → Option α) (a : α),
      matchSeq items s k = some a → ∃ s2, s2.length ≤ s.length ∧ k s2 = some a := by
  intro items
  induction items with
  | nil => exact fun s k a h => ⟨s, Nat.le_refl _, h⟩
  | cons it rest ih =>
    intro s k a h
    cases it with
    | lit l =>
      rw [matchSeq] at h
      split at h
      · obtain ⟨s2, hlen, hk⟩ := ih _ _ _ h
        exact ⟨s2, le_trans hlen (by simp), hk⟩
      · exact absurd h (by simp)
    | plus cc =>
      rw [matchSeq] at h
      obtain ⟨j, _, hsome⟩ := List.exists_of_findSome?_eq_some h
      obtain ⟨s2, hlen, hk⟩ := ih _ _ _ hsome
      exact ⟨s2, le_trans hlen (by simp), hk⟩

theorem matchSeq_lit_cons {α : Type} (l : List Char) (rest : List RItem)
    (s : List Char) (k : List Char → Option α) (a : α)
    (h : matchSeq (.lit l :: rest) s k = some a) :
    startsWithL l s = true ∧ matchSeq rest (s.drop l.length) k = some a := by
  rw [matchSeq] at h
  split at h
  · exact ⟨by assumption, h⟩
  · exact absurd h (by simp)

/-- Whether the first element of a pattern's `pre` is a nonempty literal
(true for every pattern in the table, proved by evaluation below). -/
def head_lit_nonempty (p : RPattern) : Bool :=
  match p.pre with
  | .lit (_ :: _) :: _ => true
  | _ => false

theorem patterns_head_lit :
    (PATTERNS.all fun e => e.2.all head_lit_nonempty) = true := by decide

theorem patterns_not_unknown :
    (PATTERNS.all fun e => !(e.1 == FailureType.unknown)) = true := by decide

theorem matchPat_pos (p : RPattern) (hl : head_lit_nonempty p = true)
    (s : List Char) (len : Nat) (g : Option (List Char))
    (h : matchPat p s = some (len, g)) : 0 < len ∧ len ≤ s.length := by
  obtain ⟨c, l, rest, hpre⟩ : ∃ c l rest, p.pre = .lit (c :: l) :: rest := by
    unfold head_lit_nonempty at hl
    split at hl
    · next c l rest heq => exact ⟨c, l, rest, heq⟩
    · exact absurd hl (by simp)
  unfold matchPat at h
  cases hg : p.grp with
  | none =>
    rw [hg, hpre] at h
    obtain ⟨hs, h2⟩ := matchSeq_lit_cons _ _ _ _ _ h
    obtain ⟨s2, hlen, hk⟩ := matchSeq_some_imp _ _ _ _ h2
    have hinj : s.length - s2.length = len := by
      have := Option.some.inj hk
      exact congrArg Prod.fst this
    have hls : (c :: l).length ≤ s.length := startsWithL_length _ _ hs
    simp only [List.length_drop, List.length_cons] at hlen hls
    constructor <;> omega
  | some gi =>
    rw [hg, hpre] at h
    obtain ⟨hs, h2⟩ := matchSeq_lit_cons _ _ _ _ _ h
    obtain ⟨s1, hlen1, hk1⟩ := matchSeq_some_imp _ _ _ _ h2
    obtain ⟨s2, hlen2, hk2⟩ := matchSeq_some_imp _ _ _ _ hk1
    obtain ⟨s3, hlen3, hk3⟩ := matchSeq_some_imp _ _ _ _ hk2
    have hinj : s.length - s3.length = len := by
      have := Option.some.inj hk3
      exact congrArg Prod.fst this
    have hls : (c :: l).length ≤ s.length := startsWithL_length _ _ hs
    simp only [List.length_drop, List.length_cons] at hlen1 hls
    constructor <;> omega

theorem reSearch_g0_ne_nil (p : RPattern) (hl : head_lit_nonempty p = true)
    (s : List Char) (g0 : List Char) (grp : Option (List Char))
    (h : reSearch p s = some (g0, grp)) : g0 ≠ [] := by
  unfold reSearch at h
  obtain ⟨i, _, hsome⟩ := List.exists_of_findSome?_eq_some h
  cases hmp : matchPat p (s.drop i) with
  | none => rw [hmp] at hsome; exact absurd hsome (by simp)
  | some r =>
    rw [hmp] at hsome
    obtain ⟨len, g⟩ := r
    have hg0 : (s.drop i).take len = g0 := by
      have := Option.some.inj hsome
      exact congrArg Prod.fst this
    obtain ⟨hpos, hle⟩ := matchPat_pos p hl _ _ _ hmp
    intro hnil
    rw [hnil] at hg0
    have hlen0 : ((s.drop i).take len).length = 0 := by rw [hg0]; rfl
    rw [List.length_take] at hlen0
    omega

/-! ### Bridge lemmas between the code's loops and the spec-side forms -/

theorem extract_error_lines_eq (log : String) :
    extract_error_lines log = context_windows log := by
  unfold extract_error_lines context_windows keyword_line_indexes
  exact foldl_if_append _ _ _ []

theorem pattern_search_isSome (p : RPattern) (log : String) :
    (pattern_search p log).isSome = (reSearch p log.toList).isSome := by
  unfold pattern_search
  cases reSearch p log.toList <;> rfl

theorem mapped_pattern_search_isSome {γ : Type _} (g : String × Option String → γ)
    (p : RPattern) (log : String) :
    (Option.map g (pattern_search p log)).isSome = (reSearch p log.toList).isSome := by
  unfold pattern_search
  cases reSearch p log.toList <;> rfl

theorem find_pattern_match_eq (log : String) :
    find_pattern_match log
      = (PATTERNS.find? (table_entry_matches log)).bind fun e =>
          e.2.findSome? fun p => (pattern_search p log).map fun r => (e.1, r.1, r.2) := by
  unfold find_pattern_match
  rw [findSome?_eq_bind_find?]
  have hpred :
      (fun e : FailureType × List RPattern =>
        (e.2.findSome? fun p => (pattern_search p log).map fun r => (e.1, r.1, r.2)).isSome)
        = table_entry_matches log := by
    funext e
    rw [findSome?_isSome_eq_any]
    unfold table_entry_matches
    congr 1
    funext p
    exact mapped_pattern_search_isSome _ p log
  rw [hpred]

theorem find_pattern_match_isSome (log : String) :
    (find_pattern_match log).isSome = some_pattern_matches log := by
  rw [find_pattern_match_eq]
  unfold some_pattern_matches
  cases hf : PATTERNS.find? (table_entry_matches log) with
  | none =>
    rw [List.find?_eq_none] at hf
    have : PATTERNS.any (table_entry_matches log) = false := by
      rw [List.any_eq_false]
      intro e he
      simpa using hf e he
    rw [this]
    rfl
  | some e =>
    have hmem : e ∈ PATTERNS := List.mem_of_find?_eq_some hf
    have hpe : table_entry_matches log e = true := List.find?_some hf
    have hany : PATTERNS.any (table_entry_matches log) = true :=
      List.any_eq_true.mpr ⟨e, hmem, hpe⟩
    rw [hany, Option.some_bind, findSome?_isSome_eq_any]
    unfold table_entry_matches at hpe
    have : (fun p => ((pattern_search p log).map fun r => (e.1, r.1, r.2)).isSome)
        = fun p => (reSearch p log.toList).isSome := by
      funext p
      exact mapped_pattern_search_isSome _ p log
    rw [this, hpe]

theorem claimed_selection_eq (log : String) :
    claimed_selection log = (find_pattern_match log).map fun t => (t.1, t.2.1) := by
  rw [find_pattern_match_eq]
  unfold claimed_selection
  cases hf : PATTERNS.find? (table_entry_matches log) with
  | none => rfl
  | some e =>
    rw [Option.some_bind, Option.some_bind, List.map_findSome?]
    congr 1
    funext p
    simp only [Function.comp]
    cases pattern_search p log <;> rfl

theorem find_pattern_match_props (log : String) (ft : FailureType) (msg : String)
    (grp : Option String) (h : find_pattern_match log = some (ft, msg, grp)) :
    msg ≠ "" ∧ ft ≠ .unknown := by
  unfold find_pattern_match at h
  obtain ⟨e, he, hsome⟩ := List.exists_of_findSome?_eq_some h
  obtain ⟨p, hp, hsome2⟩ := List.exists_of_findSome?_eq_some hsome
  have hft : e.1 = ft := by
    cases hps : pattern_search p log with
    | none => rw [hps] at hsome2; exact absurd hsome2 (by simp)
    | some r =>
      rw [hps] at hsome2
      have := Option.some.inj hsome2
      exact congrArg (fun t => t.1) this
  constructor
  · cases hps : pattern_search p log with
    | none => rw [hps] at hsome2; exact absurd hsome2 (by simp)
    | some r =>
      rw [hps] at hsome2
      have hmsg : r.1 = msg := by
        have := Option.some.inj hsome2
        exact congrArg (fun t => t.2.1) this
      unfold pattern_search at hps
      cases hrs : reSearch p log.toList with
      | none => rw [hrs] at hps; exact absurd hps (by simp)
      | some rr =>
        rw [hrs] at hps
        have hr1 : String.mk rr.1 = r.1 := by
          have := Option.some.inj hps
          exact congrArg (fun t => t.1) this
        have hlit : head_lit_nonempty p = true := by
          have h1 := List.all_eq_true.mp patterns_head_lit e he
          exact List.all_eq_true.mp h1 p hp
        have hne : rr.1 ≠ [] := reSearch_g0_ne_nil p hlit _ _ rr.2 (by rw [hrs])
        rw [← hmsg, ← hr1]
        intro hcontra
        exact hne (congrArg String.data hcontra)
  · have hnu := List.all_eq_true.mp patterns_not_unknown e he
    rw [← hft]
    simpa using hnu

theorem analyze_of_empty (log : String) (h : extract_error_lines log = []) :
    analyze log = ⟨.unknown, "", [], 0, ""⟩ := by
  simp [analyze, h]

theorem analyze_of_found_none (log : String) (hk : extract_error_lines log ≠ [])
    (hf : find_pattern_match log = none) :
    analyze log
      = ⟨.unknown, "", [], q03, String.mk (joinLines ((extract_error_lines log).take 10))⟩ := by
  have hne : (extract_error_lines log).isEmpty = false := by
    cases hcase : extract_error_lines log with
    | nil => exact absurd hcase hk
    | cons a l => rfl
  simp [analyze, hne, hf]

theorem analyze_of_found_some (log : String) (ft : FailureType) (msg : String)
    (grp : Option String) (hk : extract_error_lines log ≠ [])
    (hf : find_pattern_match log = some (ft, msg, grp)) :
    analyze log
      = ⟨ft, msg, details_for ft grp, q09,
         String.mk (joinLines ((extract_error_lines log).take 10))⟩ := by
  have hne : (extract_error_lines log).isEmpty = false := by
    cases hcase : extract_error_lines log with
    | nil => exact absurd hcase hk
    | cons a l => rfl
  simp [analyze, hne, hf]

/-! ### Claim C1 -/

/-- A log matched by patterns of two categories but containing no keyword
line: the analyzer never reaches pattern matching and returns `Unknown`. -/
def c1_log : String := "cannot import name \x27a\x27\nNo matching distribution found for b"

/-- C1 (counterexample): on `c1_log`, patterns of both `ModuleNotFound`
and `MissingDependency` match and the table-first matching category is
`ModuleNotFound`, yet `analyze` returns `Unknown` — the claim's selection
rule fails for a log with no keyword line. -/
theorem analyze_first_table_category_cex :
    category_matches .module_not_found c1_log = true ∧
    category_matches .missing_dependency c1_log = true ∧
    FailureType.module_not_found ≠ .missing_dependency ∧
    first_matching_category c1_log = some .module_not_found ∧
    (analyze c1_log).failure_type = .unknown ∧
    FailureType.unknown ≠ .module_not_found :=
  ⟨by decide, by decide, by decide, by decide, by decide, by decide⟩

/-- C1 (amended): for every log text that contains at least one keyword line
(so that the analyzer reaches pattern matching) and in which patterns of more
than one failure category match, `analyze` returns the category whose
pattern-table entry appears first in the fixed table order, with the first
listed matching pattern of that category supplying the error message —
independently of byte offsets, as `claimed_selection` never inspects match
positions. -/
theorem analyze_first_table_category (log : String) (ft1 ft2 : FailureType)
    (hk : extract_error_lines log ≠ [])
    (h1 : category_matches ft1 log = true)
    (h2 : category_matches ft2 log = true)
    (hne : ft1 ≠ ft2) :
    claimed_selection log
      = some ((analyze log).failure_type, (analyze log).error_message) := by
  have hsome : some_pattern_matches log = true := by
    unfold some_pattern_matches
    unfold category_matches at h1
    obtain ⟨e, he, hpe⟩ := List.any_eq_true.mp h1
    exact List.any_eq_true.mpr ⟨e, he, (Bool.and_eq_true_iff.mp hpe).2⟩
  have hiss : (find_pattern_match log).isSome = true := by
    rw [find_pattern_match_isSome]; exact hsome
  obtain ⟨t, ht⟩ := Option.isSome_iff_exists.mp hiss
  obtain ⟨ft0, msg0, grp0⟩ := t
  rw [claimed_selection_eq, ht, analyze_of_found_some log ft0 msg0 grp0 hk ht]
  rfl

theorem analyze_first_table_category_witness :
    claimed_selection "SyntaxError: x\nImportError: y"
      = some ((analyze "SyntaxError: x\nImportError: y").failure_type,
              (analyze "SyntaxError: x\nImportError: y").error_message) :=
  analyze_first_table_category "SyntaxError: x\nImportError: y" .syntax_error .import_error
    (by decide) (by decide) (by decide) (by decide)

/-! ### Claim C5 -/

/-- C5: a log in which no line contains any of the keywords `error`,
`failed`, `exception`, `traceback`, `modulenotfounderror`
(case-insensitively) is diagnosed as `Unknown` with confidence `0.0`, empty
error message, empty details and empty snippet. -/
theorem analyze_unknown_on_keywordless (log : String)
    (h : ((logLines log).all fun l => !(line_has_keyword l)) = true) :
    analyze log = ⟨.unknown, "", [], 0, ""⟩ := by
  apply analyze_of_empty
  rw [extract_error_lines_eq]
  unfold context_windows keyword_line_indexes
  have hfilter :
      ((List.range (logLines log).length).filter
        fun i => line_has_keyword (logLines log)[i]!) = [] := by
    rw [List.filter_eq_nil_iff]
    intro i hi
    have hlt : i < (logLines log).length := List.mem_range.mp hi
    have hmem : (logLines log)[i]! ∈ logLines log := by
      rw [getElem!_pos (logLines log) i hlt]
      exact List.getElem_mem hlt
    have := List.all_eq_true.mp h _ hmem
    simpa using this
  rw [hfilter]
  rfl

theorem analyze_unknown_on_keywordless_witness :
    analyze "all good\nnothing to see" = ⟨.unknown, "", [], 0, ""⟩ :=
  analyze_unknown_on_keywordless "all good\nnothing to see" (by decide)

/-! ### Claim C6 -/

theorem analyze_snippet (log : String) :
    (analyze log).log_snippet = String.mk (joinLines ((context_windows log).take 10)) := by
  rw [← extract_error_lines_eq]
  by_cases h : extract_error_lines log = []
  · rw [analyze_of_empty log h, h]; rfl
  · cases hf : find_pattern_match log with
    | none => rw [analyze_of_found_none log h hf]
    | some t =>
      obtain ⟨ft, msg, grp⟩ := t
      rw [analyze_of_found_some log ft msg grp h hf]

/-- A log whose keyword lines (indexes 2 and 8 of 9 lines) yield windows
`[0,8)` and `[6,9)` — exactly 11 context lines. -/
def eleven_log : String := "a\nb\nerror\nd\ne\nf\ng\nh\nerror end"

/-- C6: for every log, `logSnippet` is the newline-join of the first 10
lines of the concatenation, in line order and without deduplication, of the
clipped windows `[i-2, i+6)` around every keyword line index `i`; and the
11-context-line log `eleven_log` gets a snippet of exactly 10 lines. -/
theorem snippet_is_first_ten_window_lines :
    (∀ log : String,
      (analyze log).log_snippet = String.mk (joinLines ((context_windows log).take 10))) ∧
    (context_windows eleven_log).length = 11 ∧
    (splitLines (analyze eleven_log).log_snippet.toList).length = 10 :=
  ⟨analyze_snippet, by decide, by decide⟩

/-! ### Claim C7 -/

/-- A log matched by a pattern (`cannot import name '…'`) that contains no
keyword line. -/
def c7_log : String := "cannot import name \x27x\x27"

theorem zero_in_unit : (0 : Rat) ≤ 0 ∧ (0 : Rat) ≤ 1 := by decide

theorem q03_in_unit : (0 : Rat) ≤ q03 ∧ q03 ≤ 1 := by decide

theorem q09_in_unit : (0 : Rat) ≤ q09 ∧ q09 ≤ 1 := by decide

/-- C7 (counterexample): a pattern matches `c7_log`, but `analyze` returns
confidence `0.0`, not `0.9` — "confidence is exactly 0.9 when a pattern
matched" fails when no keyword line exists. -/
theorem analyze_invariant_cex :
    some_pattern_matches c7_log = true ∧
    (analyze c7_log).confidence = 0 ∧
    (0 : Rat) ≠ q09 :=
  ⟨by decide, by decide, by decide⟩

/-- C7 (amended): every diagnosis has a non-empty error message whenever its
category is not `Unknown`, and its confidence is exactly `0.9` when keyword
lines were found and a pattern matched, exactly `0.3` when keyword lines
were found but no pattern matched, exactly `0.0` when no keyword lines were
found — hence always in `[0,1]`. -/
theorem analyze_invariant (log : String) :
    ((analyze log).failure_type ≠ .unknown → (analyze log).error_message ≠ "") ∧
    (extract_error_lines log ≠ [] → some_pattern_matches log = true →
      (analyze log).confidence = q09) ∧
    (extract_error_lines log ≠ [] → some_pattern_matches log = false →
      (analyze log).confidence = q03) ∧
    (extract_error_lines log = [] → (analyze log).confidence = 0) ∧
    (0 ≤ (analyze log).confidence ∧ (analyze log).confidence ≤ 1) := by
  by_cases hk : extract_error_lines log = []
  · rw [analyze_of_empty log hk]
    exact ⟨fun hft => absurd rfl hft, fun hne _ => absurd hk hne,
      fun hne _ => absurd hk hne, fun _ => rfl, zero_in_unit.1, zero_in_unit.2⟩
  · cases hf : find_pattern_match log with
    | none =>
      have hnm : some_pattern_matches log = false := by
        rw [← find_pattern_match_isSome, hf]; rfl
      rw [analyze_of_found_none log hk hf]
      refine ⟨fun hft => absurd rfl hft, ?_, fun _ _ => rfl,
        fun h => absurd h hk, q03_in_unit.1, q03_in_unit.2⟩
      intro _ hsm
      rw [hnm] at hsm
      cases hsm
    | some t =>
      obtain ⟨ft0, msg0, grp0⟩ := t
      have hprops := find_pattern_match_props log ft0 msg0 grp0 hf
      rw [analyze_of_found_some log ft0 msg0 grp0 hk hf]
      refine ⟨fun _ => hprops.1, fun _ _ => rfl, ?_,
        fun h => absurd h hk, q09_in_unit.1, q09_in_unit.2⟩
      intro _ hsm
      have hm : some_pattern_matches log = true := by
        rw [← find_pattern_match_isSome, hf]; rfl
      rw [hm] at hsm
      cases hsm

theorem analyze_invariant_witness :
    (analyze "ImportError: nope").error_message ≠ "" ∧
    (analyze "ImportError: nope").confidence = q09 ∧
    (analyze "weird error").confidence = q03 ∧
    (analyze "quiet").confidence = 0 :=
  ⟨(analyze_invariant "ImportError: nope").1 (by decide),
   (analyze_invariant "ImportError: nope").2.1 (by decide) (by decide),
   (analyze_invariant "weird error").2.2.1 (by decide) (by decide),
   (analyze_invariant "quiet").2.2.2.1 (by decide)⟩

/-! ### Claim C3 -/

/-- C3: a `MissingDependency` diagnosis whose details contain
`package_name = p` deterministically yields `fix_type "add_dependency"`,
exactly one `insert` ChangeOp on `requirements.txt` with sentinel line
number `-1` and `new_content = p ++ "\n"`, confidence `0.85`
(`q085 = 0.85`), and zero completion calls. -/
theorem generate_fix_missing_dependency (details : List (String × String)) (p : String)
    (fc fp mdl : String) (compl : CompletionRequest → String)
    (h : lookupS details "package_name" = some p) :
    generate_fix .missing_dependency details fc fp mdl compl
      = (.ok (.obj
          [("fix_type", .str "add_dependency"),
           ("changes", .arr
             [.obj
               [("file", .str "requirements.txt"),
                ("action", .str "insert"),
                ("line_number", .num (-1)),
                ("old_content", .str ""),
                ("new_content", .str (p ++ "\n"))]]),
           ("explanation",
             .str ("Add missing dependency \x27" ++ p ++ "\x27 to requirements.txt")),
           ("confidence", .num q085)]), 0) ∧
    q085 = 0.85 := by
  refine ⟨?_, q085_eq⟩
  simp [generate_fix, fix_missing_dependency, h]

theorem generate_fix_missing_dependency_witness :
    generate_fix .missing_dependency [("package_name", "numpy")] "" "requirements.txt"
        "gpt-4-turbo-preview" (fun _ => "")
      = (.ok (.obj
          [("fix_type", .str "add_dependency"),
           ("changes", .arr
             [.obj
               [("file", .str "requirements.txt"),
                ("action", .str "insert"),
                ("line_number", .num (-1)),
                ("old_content", .str ""),
                ("new_content", .str ("numpy" ++ "\n"))]]),
           ("explanation",
             .str ("Add missing dependency \x27" ++ "numpy" ++ "\x27 to requirements.txt")),
           ("confidence", .num q085)]), 0) ∧
    q085 = 0.85 :=
  generate_fix_missing_dependency [("package_name", "numpy")] "numpy" "" "requirements.txt"
    "gpt-4-turbo-preview" (fun _ => "") rfl

/-! ### Claim C10 -/

/-- The log matched only by the capture-less
`error: externally-managed-environment` pattern. -/
def eme_log : String := "error: externally-managed-environment"

/-- C10: a `MissingDependency` details dict lacking `package_name` (as the
capture-less externally-managed-environment pattern produces) still yields a
deterministic `add_dependency` proposal whose single insert has
`new_content = "\n"` and confidence `0.85`, with zero completion calls. -/
theorem generate_fix_missing_dependency_no_key (details : List (String × String))
    (fc fp mdl : String) (compl : CompletionRequest → String)
    (h : lookupS details "package_name" = none) :
    generate_fix .missing_dependency details fc fp mdl compl
      = (.ok (.obj
          [("fix_type", .str "add_dependency"),
           ("changes", .arr
             [.obj
               [("file", .str "requirements.txt"),
                ("action", .str "insert"),
                ("line_number", .num (-1)),
                ("old_content", .str ""),
                ("new_content", .str "\n")]]),
           ("explanation", .str "Add missing dependency \x27\x27 to requirements.txt"),
           ("confidence", .num q085)]), 0) ∧
    lookupS (analyze eme_log).details "package_name" = none ∧
    (analyze eme_log).failure_type = .missing_dependency := by
  refine ⟨?_, by decide, by decide⟩
  simp [generate_fix, fix_missing_dependency, h]

theorem generate_fix_missing_dependency_no_key_witness :
    generate_fix .missing_dependency [] "" "f.py" "gpt-4-turbo-preview" (fun _ => "")
      = (.ok (.obj
          [("fix_type", .str "add_dependency"),
           ("changes", .arr
             [.obj
               [("file", .str "requirements.txt"),
                ("action", .str "insert"),
                ("line_number", .num (-1)),
                ("old_content", .str ""),
                ("new_content", .str "\n")]]),
           ("explanation", .str "Add missing dependency \x27\x27 to requirements.txt"),
           ("confidence", .num q085)]), 0) ∧
    lookupS (analyze eme_log).details "package_name" = none ∧
    (analyze eme_log).failure_type = .missing_dependency :=
  generate_fix_missing_dependency_no_key [] "" "f.py" "gpt-4-turbo-preview" (fun _ => "") rfl

/-! ### Claim C2 -/

theorem mapError_ne_malformed (r : Except String Json) :
    r.mapError PyError.jsonDecodeError ≠ .error .malformedResponseError := by
  cases r <;> simp [Except.mapError]

/-- C2 (counterexample): the completion response `"{}"` parses as JSON but
is not a well-formed FixProposal (every required field is missing), yet
`generate_fix` on the `ModuleNotFound` branch returns it verbatim instead of
raising `MalformedResponseError`. -/
theorem generate_fix_validation_cex :
    generate_fix .module_not_found [("missing_module", "foo")] "" "app.py"
        "gpt-4-turbo-preview" (fun _ => "\x7b\x7d")
      = (.ok (.obj []), 1) ∧
    is_well_formed_fix_proposal (.obj []) = false ∧
    (Except.ok (.obj []) : Except PyError Json) ≠ .error .malformedResponseError :=
  ⟨rfl, by decide, fun h => Except.noConfusion h⟩

/-- C2 (amended): `generate_fix` performs no shape validation at all: it can
never produce `MalformedResponseError`, and on each completion-backed branch
(`ModuleNotFound`, `BrokenPath`, and the generic branch for `ImportError`,
`SyntaxError`, `Unknown`) the result is exactly `json.loads` of the
completion response — returned verbatim when it parses, surfacing the
untyped JSON decode error when it does not. -/
theorem generate_fix_no_validation :
    (∀ ft details fc fp mdl compl,
      (generate_fix ft details fc fp mdl compl).1 ≠ .error .malformedResponseError) ∧
    (∀ details fc fp mdl compl,
      (generate_fix .module_not_found details fc fp mdl compl).1
        = (json_loads (compl (mnf_request details fc fp mdl))).mapError PyError.jsonDecodeError) ∧
    (∀ details fc fp mdl compl,
      (generate_fix .broken_path details fc fp mdl compl).1
        = (json_loads (compl (bp_request details fc mdl))).mapError PyError.jsonDecodeError) ∧
    (∀ ft details fc fp mdl compl,
      ft = .import_error ∨ ft = .syntax_error ∨ ft = .unknown →
      (generate_fix ft details fc fp mdl compl).1
        = (json_loads (compl (generic_request ft details fc mdl))).mapError PyError.jsonDecodeError) := by
  refine ⟨?_, fun _ _ _ _ _ => rfl, fun _ _ _ _ _ => rfl, ?_⟩
  · intro ft details fc fp mdl compl
    cases ft
    case module_not_found => exact mapError_ne_malformed _
    case import_error => exact mapError_ne_malformed _
    case missing_dependency => exact fun h => Except.noConfusion h
    case broken_path => exact mapError_ne_malformed _
    case syntax_error => exact mapError_ne_malformed _
    case unknown => exact mapError_ne_malformed _
  · intro ft details fc fp mdl compl h
    rcases h with rfl | rfl | rfl <;> rfl

theorem generate_fix_no_validation_witness :
    (generate_fix .unknown [] "" "m.py" "gpt-4-turbo-preview" (fun _ => "x")).1
      = (json_loads ((fun _ : CompletionRequest => "x")
          (generic_request .unknown [] "" "gpt-4-turbo-preview"))).mapError
          PyError.jsonDecodeError :=
  generate_fix_no_validation.2.2.2 .unknown [] "" "m.py" "gpt-4-turbo-preview"
    (fun _ => "x") (.inr (.inr rfl))

/-! ### Claim C9 -/

/-- C9: when no check run has conclusion `"failure"`, the pipeline returns
the `NoFailures` outcome with its descriptive message after the two initial
queries, never fetching logs, running the analyzer, fetching the diff or a
file, calling the completion service, or posting a comment. -/
theorem pipeline_no_failures (env : Env) (threshold : Rat)
    (h : env.check_runs.filter (fun c => c.conclusion == some "failure") = []) :
    process_pr_failure env threshold
      = (.ok (.no_failures "No failed CI checks found"), ⟨1, 1, 0, 0, 0, 0, 0, 0, 0⟩) := by
  simp only [process_pr_failure, h]

def env9 : Env :=
  ⟨⟨"t", "main"⟩, [⟨1, "build", some "success"⟩, ⟨2, "lint", none⟩],
   fun _ => "", "", fun _ _ => "", fun _ => "", "gpt-4-turbo-preview"⟩

theorem pipeline_no_failures_witness :
    process_pr_failure env9 q07
      = (.ok (.no_failures "No failed CI checks found"), ⟨1, 1, 0, 0, 0, 0, 0, 0, 0⟩) :=
  pipeline_no_failures env9 q07 (by decide)

/-! ### Claim C4 -/

/-- C4: when the diagnosis confidence is strictly below the threshold, the
pipeline returns the `LowConfidence` outcome carrying that diagnosis; the
trace shows the fix generator was never invoked and no diff fetch, file
fetch or comment post happened. -/
theorem pipeline_low_confidence (env : Env) (threshold : Rat) (check : CheckRun)
    (rest : List CheckRun)
    (hc : env.check_runs.filter (fun c => c.conclusion == some "failure") = check :: rest)
    (hconf : (analyze (env.check_logs check.id)).confidence < threshold) :
    process_pr_failure env threshold
      = (.ok (.low_confidence (analyze (env.check_logs check.id))
          "Unable to confidently diagnose the failure"), ⟨1, 1, 1, 1, 0, 0, 0, 0, 0⟩) := by
  simp only [process_pr_failure, hc]
  rw [if_pos hconf]

def env4 : Env :=
  ⟨⟨"t", "main"⟩, [⟨7, "tests", some "failure"⟩],
   fun _ => "some error happened", "", fun _ _ => "", fun _ => "", "gpt-4-turbo-preview"⟩

theorem pipeline_low_confidence_witness :
    process_pr_failure env4 q07
      = (.ok (.low_confidence (analyze (env4.check_logs 7))
          "Unable to confidently diagnose the failure"), ⟨1, 1, 1, 1, 0, 0, 0, 0, 0⟩) :=
  pipeline_low_confidence env4 q07 ⟨7, "tests", some "failure"⟩ [] (by decide) (by decide)

/-! ### Claim C8 -/

/-- A diagnosis (no `missing_module`) whose snippet's first traceback file
reference is the absolute path `/home/user/x.py`. -/
def c8_diag : Diagnosis :=
  ⟨.broken_path,
   "FileNotFoundError: [Errno 2] No such file or directory: \x27/home/user/x.py\x27",
   [("missing_path", "/home/user/x.py")], q09,
   "  File \"/home/user/x.py\", line 1, in m"⟩

/-- A diagnosis (no `missing_module`) whose snippet's first `File "<path>"`
reference is the non-Python file `conf.txt`, followed by a `./`-prefixed
Python one. -/
def c8b_diag : Diagnosis :=
  ⟨.broken_path,
   "FileNotFoundError: [Errno 2] No such file or directory: \x27conf.txt\x27",
   [("missing_path", "conf.txt")], q09,
   "  File \"conf.txt\", line 1, in m\n  File \"./app.py\", line 2, in n"⟩

/-- C8 (counterexample), two independent failures of the snippet clause.
First, on `c8_diag` the first `File "<path>"` reference is `/home/user/x.py`
with no leading `./` to strip, so the claim predicts `/home/user/x.py`, but
the code's `lstrip('./')` strips every leading `.` and `/` character and
returns `home/user/x.py`. Second, on `c8b_diag` the first `File "<path>"`
reference is `conf.txt`, untouched by any stripping, so the claim predicts
`conf.txt`, but the code's regex only accepts paths ending in `.py` and
returns `app.py` (from the later reference, `./` stripped). -/
theorem locate_affected_file_cex :
    locate_affected_file "" c8_diag = some "home/user/x.py" ∧
    snippet_first_path c8_diag.log_snippet = some "/home/user/x.py" ∧
    strip_leading_dot_slash "/home/user/x.py" = "/home/user/x.py" ∧
    ("home/user/x.py" : String) ≠ "/home/user/x.py" ∧
    locate_affected_file "" c8b_diag = some "app.py" ∧
    snippet_first_any_ref c8b_diag.log_snippet = some "conf.txt" ∧
    strip_leading_dot_slash "conf.txt" = "conf.txt" ∧
    ("app.py" : String) ≠ "conf.txt" :=
  ⟨by decide, by decide, by decide, by decide, by decide, by decide, by decide, by decide⟩

/-- A `missing_module` diagnosis for exercising the diff branch. -/
def mm_diag : Diagnosis :=
  ⟨.module_not_found, "ModuleNotFoundError: No module named \x27requests\x27",
   [("missing_module", "requests")], q09, ""⟩

/-- C8 (amended): when details contain `missing_module` and the diff has a
`+++ b/<path>.py` header, the first such path is returned; otherwise
(details without `missing_module`, or a diff without any match) the first
`File "<path>.py"` reference of the snippet is returned with ALL leading `.`
and `/` characters stripped (Python's `lstrip('./')`); and when that also
fails, the run reaching file location ends at the `FileNotFound` outcome
carrying the diagnosis. -/
theorem locate_affected_file_spec :
    (∀ diff d f, (lookupS d.details "missing_module").isSome = true →
      first_diff_py_file diff = some f → locate_affected_file diff d = some f) ∧
    (∀ diff d, (lookupS d.details "missing_module").isSome = false →
      locate_affected_file diff d = snippet_file_ref d.log_snippet) ∧
    (∀ diff d, first_diff_py_file diff = none →
      locate_affected_file diff d = snippet_file_ref d.log_snippet) ∧
    (∀ (env : Env) (threshold : Rat) (check : CheckRun) (rest : List CheckRun),
      env.check_runs.filter (fun c => c.conclusion == some "failure") = check :: rest →
      ¬ ((analyze (env.check_logs check.id)).confidence < threshold) →
      locate_affected_file env.pr_diff (analyze (env.check_logs check.id)) = none →
      process_pr_failure env threshold
        = (.ok (.file_not_found (analyze (env.check_logs check.id))
            "Could not locate the affected file"),
           ⟨1, 1, 1, 1,
            if (lookupS (analyze (env.check_logs check.id)).details "missing_module").isSome
            then 1 else 0,
            0, 0, 0, 0⟩)) := by
  refine ⟨?_, ?_, ?_, ?_⟩
  · intro diff d f h1 h2
    simp [locate_affected_file, h1, h2]
  · intro diff d h
    simp [locate_affected_file, h]
  · intro diff d h
    simp [locate_affected_file, h]
  · intro env threshold check rest hc hconf hloc
    simp only [process_pr_failure, hc]
    rw [if_neg hconf]
    simp only [hloc]

/-- An environment whose only failed check diagnoses confidently but yields
no locatable file. -/
def env8 : Env :=
  ⟨⟨"t", "main"⟩, [⟨5, "tests", some "failure"⟩],
   fun _ => "SyntaxError: bad", "", fun _ _ => "", fun _ => "", "gpt-4-turbo-preview"⟩

theorem locate_affected_file_spec_witness :
    locate_affected_file "+++ b/app/main.py\n" mm_diag = some "app/main.py" ∧
    locate_affected_file "ignored" c8_diag = snippet_file_ref c8_diag.log_snippet ∧
    locate_affected_file "" mm_diag = snippet_file_ref mm_diag.log_snippet ∧
    process_pr_failure env8 q07
      = (.ok (.file_not_found (analyze (env8.check_logs (5 : Nat)))
          "Could not locate the affected file"),
         ⟨1, 1, 1, 1,
          if (lookupS (analyze (env8.check_logs (5 : Nat))).details "missing_module").isSome
          then 1 else 0,
          0, 0, 0, 0⟩) :=
  ⟨locate_affected_file_spec.1 "+++ b/app/main.py\n" mm_diag "app/main.py"
     (by decide) (by decide),
   locate_affected_file_spec.2.1 "ignored" c8_diag (by decide),
   locate_affected_file_spec.2.2.1 "" mm_diag (by decide),
   locate_affected_file_spec.2.2.2 env8 q07 ⟨5, "tests", some "failure"⟩ []
     (by decide) (by decide) (by decide)⟩

end DietCode
